import Mathlib

/-
Verification development for the pokete battle animation system
(src/pokete/classes/battle_animations.py, the authoritative newer module
per the design notes).

Modelling conventions:
- Python ints are ℤ, Python floats are ℚ (all float literals appearing in the
  module are decimal and are transcribed as exact rationals).
- The scrap_engine surface is an external collaborator; it is modelled by an
  environment `Env` providing a placement oracle `canPlace x y` (placement and
  relative moves succeed exactly when the target coordinate is placeable,
  matching the CoordinateError contract), a stream of boolean draws for
  random.random() > 0.5, and a stream of integer draws for random.randint.
- Every `play` method is embedded as a pure function returning the list of
  surface operations (events) it performs, in order.  Exception paths
  (CoordinateError caught by try/except) become the corresponding branch of
  the event-producing function.
- pokete.release.SPEED_OF_TIME (not under src) is the global time-scale
  factor; it is carried in the environment as `speed`.
- pokete.base.color (not under src) provides escape-code strings; the
  concrete values are taken from the repository test suite's mock of that
  module; only their identity/distinctness matters here.
-/

namespace Pokete

namespace Color

def white : String := "\x1b[1;37m"

def red : String := "\x1b[38;5;196m"

def green : String := "\x1b[38;5;70m"

def yellow : String := "\x1b[38;5;226m"

def blue : String := "\x1b[34m"

def purple : String := "\x1b[1;35m"

def cyan : String := "\x1b[1;36m"

def grey : String := "\x1b[1;30m"

def lightblue : String := "\x1b[1;34m"

def thicc : String := "\x1b[1m"

def brown : String := "\x1b[38;5;88m"

end Color

/-- Python int() truncation toward zero applied to a rational. -/
def pyInt (q : ℚ) : ℤ := Int.tdiv q.num q.den

/-- AnimationIntensity enum (battle_animations.py lines 27-32). -/
inductive AnimationIntensity where
  | WEAK
  | NORMAL
  | STRONG
  | CRITICAL
deriving DecidableEq, Repr

/-- TypeEffects dataclass (battle_animations.py lines 35-41). -/
structure TypeEffects where
  color : String
  particle_char : String
  impact_chars : List String
  trail_char : String
deriving DecidableEq, Repr

/-- The "normal" entry of TYPE_EFFECT_CONFIG (line 46); also the fallback of
get_type_effects. -/
def normalTypeEffects : TypeEffects :=
  ⟨Color.white, "*", ["*", "x", "*"], "."⟩

/-- TYPE_EFFECT_CONFIG (battle_animations.py lines 45-57), as an association
list in source order.  The "ground" entry uses Color.brown (the hasattr test:
the color module mocked by the test suite does define brown). -/
def TYPE_EFFECT_CONFIG : List (String × TypeEffects) :=
  [ ("normal", normalTypeEffects),
    ("fire", ⟨Color.red ++ Color.thicc, "~", ["*", "⁂", "✦", "*"], "°"⟩),
    ("water", ⟨Color.blue, "~", ["o", "O", "o"], "·"⟩),
    ("plant", ⟨Color.green, "#", ["❋", "*", "❋"], "·"⟩),
    ("electro", ⟨Color.yellow ++ Color.thicc, "⚡", ["*", "X", "*"], "-"⟩),
    ("ground", ⟨Color.brown, "▪", ["■", "□", "■"], "."⟩),
    ("stone", ⟨Color.grey, "●", ["◆", "◇", "◆"], "·"⟩),
    ("ice", ⟨Color.cyan, "❄", ["✦", "✧", "✦"], "*"⟩),
    ("flying", ⟨Color.lightblue, "~", ["≈", "~", "≈"], "·"⟩),
    ("poison", ⟨Color.purple, "☠", ["✗", "X", "✗"], "·"⟩),
    ("undead", ⟨Color.purple ++ Color.thicc, "☠", ["✝", "†", "✝"], "·"⟩) ]

/-- get_type_effects (battle_animations.py lines 60-62):
TYPE_EFFECT_CONFIG.get(type_name, TYPE_EFFECT_CONFIG["normal"]). -/
def get_type_effects (type_name : String) : TypeEffects :=
  (TYPE_EFFECT_CONFIG.lookup type_name).getD normalTypeEffects

/-- get_animation_intensity (battle_animations.py lines 383-393). -/
def get_animation_intensity (damage : ℤ) (attack_factor : ℚ) :
    AnimationIntensity :=
  let effective_power : ℚ := damage * attack_factor
  if effective_power ≤ 2 then AnimationIntensity.WEAK
  else if effective_power ≤ 5 then AnimationIntensity.NORMAL
  else if effective_power ≤ 10 then AnimationIntensity.STRONG
  else AnimationIntensity.CRITICAL

/-- One surface operation performed by an animator, in the order performed.
add/addFail record an attempted se.Text.add (success / CoordinateError);
move records a successful se.Text.move; remove records se.Text.remove;
redraw records map.show(); sleep records time.sleep with its scaled delay. -/
inductive Ev where
  | add (text : String) (x y : ℤ)
  | addFail (text : String) (x y : ℤ)
  | move (dx dy : ℤ)
  | remove
  | redraw
  | sleep (d : ℚ)
deriving DecidableEq, Repr

def isAdd : Ev → Bool
  | Ev.add _ _ _ => true
  | _ => false

def isRemove : Ev → Bool
  | Ev.remove => true
  | _ => false

def isMove : Ev → Bool
  | Ev.move _ _ => true
  | _ => false

def isRedraw : Ev → Bool
  | Ev.redraw => true
  | _ => false

def isSleep : Ev → Bool
  | Ev.sleep _ => true
  | _ => false

/-- Net number of glyph tokens still placed on the surface after a trace:
each add event places one fresh token, each remove event removes one
previously placed token (the embedding emits remove only for placed tokens,
mirroring the `if self.added` / per-object removal discipline of the code). -/
def stillPlaced (tr : List Ev) : ℤ :=
  (tr.countP isAdd : ℤ) - (tr.countP isRemove : ℤ)

/-- External environment: the scrap_engine surface and randomness.
canPlace x y says whether an add/move targeting (x, y) succeeds;
coin k is the k-th random.random() > 0.5 draw; jit k the k-th
random.randint(-1, 1) draw; speed is pokete.release.SPEED_OF_TIME. -/
structure Env where
  canPlace : ℤ → ℤ → Bool
  coin : ℕ → Bool
  jit : ℕ → ℤ
  speed : ℚ

/-- An all-permissive deterministic environment used for concrete runs. -/
def envAll : Env :=
  ⟨fun _ _ => true, fun _ => true, fun _ => 0, 1⟩

/-- DamageNumber object state after __init__ (battle_animations.py lines
68-91).  The map handle lives in Env; the runtime `added` flag is threaded by
the play functions. -/
structure DamageNumber where
  damage : ℤ
  x : ℤ
  y : ℤ
  is_critical : Bool
  is_heal : Bool
  text : String
  color : String
deriving DecidableEq, Repr

/-- DamageNumber.__init__ (lines 68-91): computes the rendered text and the
final color from damage / is_critical / is_heal, keeping the passed color
only on the plain branch. -/
def DamageNumber.init (damage x y : ℤ) (color : String)
    (is_critical is_heal : Bool) : DamageNumber :=
  let tc : String × String :=
    if is_heal then ("+" ++ toString damage, Color.green ++ Color.thicc)
    else if damage = 0 then ("MISS", Color.grey)
    else if is_critical then
      ("!" ++ toString damage ++ "!", Color.yellow ++ Color.thicc)
    else (toString damage, color)
  ⟨damage, x, y, is_critical, is_heal, tc.1, tc.2⟩

/-- The for-loop of DamageNumber.play (lines 106-114), with the remaining
iteration count as fuel.  Each iteration: map.show(), time.sleep(scaled
delay), then if y > 1 attempt text_obj.move(0, -1); a CoordinateError on the
move breaks out of the loop; when y ≤ 1 the iteration performs no move and
the loop continues.  Returns the events and the final row. -/
def dnRiseLoop (env : Env) (x : ℤ) (delay : ℚ) : ℤ → ℕ → List Ev × ℤ
  | y, 0 => ([], y)
  | y, n + 1 =>
    if y > 1 then
      if env.canPlace x (y - 1) then
        let r := dnRiseLoop env x delay (y - 1) n
        (Ev.redraw :: Ev.sleep (env.speed * delay) :: Ev.move 0 (-1) :: r.1,
          r.2)
      else
        ([Ev.redraw, Ev.sleep (env.speed * delay)], y)
    else
      let r := dnRiseLoop env x delay y n
      (Ev.redraw :: Ev.sleep (env.speed * delay) :: r.1, r.2)

/-- The non-miss path of DamageNumber.play (lines 99-116): attempt the add
(early return on CoordinateError), run the rise loop for
steps = max(3, int(duration / 0.15)) iterations, then _cleanup. -/
def dnPlayRise (env : Env) (dn : DamageNumber) (duration : ℚ) : List Ev :=
  if env.canPlace dn.x dn.y then
    let steps : ℕ := (max 3 (pyInt (duration / (3 / 20)))).toNat
    let r := dnRiseLoop env dn.x (duration / steps) dn.y steps
    Ev.add dn.text dn.x dn.y :: (r.1 ++ [Ev.remove])
  else
    [Ev.addFail dn.text dn.x dn.y]

/-- The three oscillation cycles of DamageNumber._play_miss (lines 126-138),
threading the token column and the index into the coin stream.  Each cycle:
show, sleep(0.1 scaled), try move(±1, 0) (failure is passed over), show,
sleep(0.1 scaled), try move(∓1, 0). -/
def dnMissLoop (env : Env) (y : ℤ) : ℤ → ℕ → ℕ → List Ev × ℤ × ℕ
  | x, k, 0 => ([], x, k)
  | x, k, n + 1 =>
    let d1 : ℤ := if env.coin k then 1 else -1
    let m1 : List Ev × ℤ :=
      if env.canPlace (x + d1) y then ([Ev.move d1 0], x + d1) else ([], x)
    let d2 : ℤ := if env.coin (k + 1) then -1 else 1
    let m2 : List Ev × ℤ :=
      if env.canPlace (m1.2 + d2) y then ([Ev.move d2 0], m1.2 + d2)
      else ([], m1.2)
    let r := dnMissLoop env y m2.2 (k + 2) n
    (Ev.redraw :: Ev.sleep (env.speed * (1 / 10)) ::
        (m1.1 ++ Ev.redraw :: Ev.sleep (env.speed * (1 / 10)) ::
          (m2.1 ++ r.1)),
      r.2)

/-- DamageNumber._play_miss (lines 118-140): attempt the add (early return on
CoordinateError), oscillate for 3 cycles, then _cleanup. -/
def dnPlayMiss (env : Env) (dn : DamageNumber) : List Ev :=
  if env.canPlace dn.x dn.y then
    Ev.add dn.text dn.x dn.y :: ((dnMissLoop env dn.y dn.x 0 3).1 ++
      [Ev.remove])
  else
    [Ev.addFail dn.text dn.x dn.y]

/-- DamageNumber.play (lines 93-116): dispatch to the miss path when
damage == 0 and not is_heal, otherwise the rising path. -/
def DamageNumber.play (env : Env) (dn : DamageNumber) (duration : ℚ) :
    List Ev :=
  if dn.damage = 0 ∧ dn.is_heal = false then dnPlayMiss env dn
  else dnPlayRise env dn duration

/-- DamageNumber._cleanup (lines 142-149), the glyph-token dispose operation:
given the token's `added` flag and the number of tokens currently placed on
the surface, remove the token if it is placed and clear the flag.  Returns
the new flag, the new placed count, and the surface events performed. -/
def disposeTok (added : Bool) (placedCount : ℕ) : Bool × ℕ × List Ev :=
  if added then (false, placedCount - 1, [Ev.remove])
  else (false, placedCount, [])

/-- StatusEffectIndicator.EFFECT_COLORS (battle_animations.py lines
155-162). -/
def EFFECT_COLORS : List (String × String) :=
  [ ("paralyzation", Color.yellow ++ Color.thicc),
    ("sleep", Color.white),
    ("burning", Color.red ++ Color.thicc),
    ("poison", Color.purple),
    ("confusion", Color.lightblue),
    ("freezing", Color.cyan) ]

/-- StatusEffectIndicator.EFFECT_SYMBOLS (lines 164-171). -/
def EFFECT_SYMBOLS : List (String × String) :=
  [ ("paralyzation", "⚡"),
    ("sleep", "Z"),
    ("burning", "🔥"),
    ("poison", "☠"),
    ("confusion", "?"),
    ("freezing", "❄") ]

/-- EFFECT_COLORS.get(effect_name, Color.white) (line 181). -/
def statusColor (effect_name : String) : String :=
  (EFFECT_COLORS.lookup effect_name).getD Color.white

/-- EFFECT_SYMBOLS.get(effect_name, "*") (line 182). -/
def statusSymbol (effect_name : String) : String :=
  (EFFECT_SYMBOLS.lookup effect_name).getD ("*")

/-- StatusEffectIndicator object state after __init__ (lines 173-190). -/
structure StatusEffectIndicator where
  effect_name : String
  x : ℤ
  y : ℤ
  is_applied : Bool
  text : String
  color : String
deriving DecidableEq, Repr

/-- StatusEffectIndicator.__init__ (lines 173-190): text is "+symbol" when
applied, "-symbol" when removed. -/
def StatusEffectIndicator.init (effect_name : String) (x y : ℤ)
    (is_applied : Bool) : StatusEffectIndicator :=
  ⟨effect_name, x, y, is_applied,
    (if is_applied then "+" else "-") ++ statusSymbol effect_name,
    statusColor effect_name⟩

/-- The for-loop of StatusEffectIndicator.play (lines 200-206): three cycles
of show, sleep(duration/6 scaled), then an upward move that breaks the loop
on CoordinateError.  Tracks the token row. -/
def seiLoop (env : Env) (x : ℤ) (delay : ℚ) : ℤ → ℕ → List Ev × ℤ
  | y, 0 => ([], y)
  | y, n + 1 =>
    if env.canPlace x (y - 1) then
      let r := seiLoop env x delay (y - 1) n
      (Ev.redraw :: Ev.sleep (env.speed * delay) :: Ev.move 0 (-1) :: r.1,
        r.2)
    else
      ([Ev.redraw, Ev.sleep (env.speed * delay)], y)

/-- StatusEffectIndicator.play (lines 192-212): attempt the add (early
return on CoordinateError), three move-up cycles, then remove if added. -/
def StatusEffectIndicator.play (env : Env) (sei : StatusEffectIndicator)
    (duration : ℚ) : List Ev :=
  if env.canPlace sei.x sei.y then
    Ev.add sei.text sei.x sei.y ::
      ((seiLoop env sei.x (duration / 6) sei.y 3).1 ++ [Ev.remove])
  else
    [Ev.addFail sei.text sei.x sei.y]

/-- ScreenShake.shake_amounts (lines 221-226). -/
def shake_amounts : AnimationIntensity → ℕ
  | AnimationIntensity.WEAK => 0
  | AnimationIntensity.NORMAL => 1
  | AnimationIntensity.STRONG => 2
  | AnimationIntensity.CRITICAL => 3

/-- ScreenShake.play (lines 228-236): no-op when the amount is 0, otherwise
amount * 2 cycles of show and a 0.03 scaled sleep; no glyphs are placed. -/
def ScreenShake.play (env : Env) (intensity : AnimationIntensity) :
    List Ev :=
  let amount := shake_amounts intensity
  if amount = 0 then []
  else (List.range (amount * 2)).flatMap
    (fun _ => [Ev.redraw, Ev.sleep (env.speed * (3 / 100))])

/-- External icon rectangle for an entity (se.Box fields read by the
animators). -/
structure IconRect where
  x : ℤ
  y : ℤ
  width : ℤ
  height : ℤ
deriving DecidableEq, Repr

/-- flash_positions of HitFlash.play (lines 252-257): the four corner
positions just outside the target icon. -/
def hitFlashPositions (ico : IconRect) : List (ℤ × ℤ) :=
  [ (ico.x - 1, ico.y),
    (ico.x + ico.width, ico.y),
    (ico.x - 1, ico.y + ico.height - 1),
    (ico.x + ico.width, ico.y + ico.height - 1) ]

/-- One cycle of the HitFlash.play loop body (lines 260-277) for one impact
char: attempt an add at each corner (CoordinateError skips that corner),
show, sleep(0.08 scaled), then remove every successfully added object and
clear the working set. -/
def hitFlashCycle (env : Env) (ch : String) (ps : List (ℤ × ℤ)) : List Ev :=
  (ps.map fun p =>
    if env.canPlace p.1 p.2 then Ev.add ch p.1 p.2
    else Ev.addFail ch p.1 p.2)
  ++ [Ev.redraw, Ev.sleep (env.speed * (2 / 25))]
  ++ List.replicate (ps.filter fun p => env.canPlace p.1 p.2).length
      Ev.remove

/-- HitFlash.play (lines 247-277): the hasattr guard on the icon is
discharged statically by the typed IconRect; then one cycle per impact char
of the type's style, bounded by the flash count. -/
def HitFlash.play (env : Env) (ico : IconRect) (type_name : String)
    (flashes : ℕ) : List Ev :=
  ((get_type_effects type_name).impact_chars.take flashes).flatMap
    (fun ch => hitFlashCycle env ch (hitFlashPositions ico))

/-- TypeParticles constructor state (lines 283-290). -/
structure TypeParticles where
  start_x : ℤ
  start_y : ℤ
  end_x : ℤ
  end_y : ℤ
  type_name : String
deriving DecidableEq, Repr

/-- The particle-spawning loop of TypeParticles.play (lines 294-311):
each attempt draws two randint offsets, then tries to add the particle at
the jittered start; on CoordinateError the particle is dropped.  Returns the
events, the positions of the successfully placed particles (in order), and
the next randint index. -/
def tpSpawn (env : Env) (ch : String) (sx sy : ℤ) :
    ℕ → ℕ → List Ev × List (ℤ × ℤ) × ℕ
  | k, 0 => ([], [], k)
  | k, n + 1 =>
    let px := sx + env.jit k
    let py := sy + env.jit (k + 1)
    let r := tpSpawn env ch sx sy (k + 2) n
    if env.canPlace px py then
      (Ev.add ch px py :: r.1, (px, py) :: r.2.1, r.2.2)
    else
      (Ev.addFail ch px py :: r.1, r.2.1, r.2.2)

/-- The inner particle loop of one step of TypeParticles.play (lines
318-328): each particle draws two randint jitters, computes the truncated
interpolated target, and attempts the move; a CoordinateError leaves that
particle where it is (it stays in the active set). -/
def tpMoveParticles (env : Env) (sx sy : ℤ) (dx dy : ℚ) (step : ℕ) :
    ℕ → List (ℤ × ℤ) → List Ev × List (ℤ × ℤ) × ℕ
  | k, [] => ([], [], k)
  | k, p :: ps =>
    let nx := pyInt ((sx : ℚ) + dx * step + (env.jit k : ℚ))
    let ny := pyInt ((sy : ℚ) + dy * step + (env.jit (k + 1) : ℚ))
    let r := tpMoveParticles env sx sy dx dy step (k + 2) ps
    if env.canPlace nx ny then
      (Ev.move (nx - p.1) (ny - p.2) :: r.1, (nx, ny) :: r.2.1, r.2.2)
    else
      (r.1, p :: r.2.1, r.2.2)

/-- The step loop of TypeParticles.play (lines 317-331): for each step index
move every particle, then show and sleep(0.05 scaled). -/
def tpLoop (env : Env) (sx sy : ℤ) (dx dy : ℚ) :
    ℕ → ℕ → List (ℤ × ℤ) → ℕ → List Ev × List (ℤ × ℤ) × ℕ
  | _, k, ps, 0 => ([], ps, k)
  | step, k, ps, fuel + 1 =>
    let m := tpMoveParticles env sx sy dx dy step k ps
    let r := tpLoop env sx sy dx dy (step + 1) m.2.2 m.2.1 fuel
    (m.1 ++ Ev.redraw :: Ev.sleep (env.speed * (1 / 20)) :: r.1, r.2)

/-- TypeParticles.play (lines 292-337): spawn num_particles particles, run
steps = max(|Δx|, |Δy|, 1) interpolation steps, then remove every particle
still in the active set (all of them — move failures keep particles). -/
def TypeParticles.play (env : Env) (tp : TypeParticles)
    (num_particles : ℕ) : List Ev :=
  let te := get_type_effects tp.type_name
  let s := tpSpawn env te.particle_char tp.start_x tp.start_y 0 num_particles
  let steps : ℤ := max (|tp.end_x - tp.start_x|)
    (max (|tp.end_y - tp.start_y|) 1)
  let dx : ℚ := ((tp.end_x - tp.start_x : ℤ) : ℚ) / (steps : ℚ)
  let dy : ℚ := ((tp.end_y - tp.start_y : ℤ) : ℚ) / (steps : ℚ)
  let l := tpLoop env tp.start_x tp.start_y dx dy 0 s.2.2 s.2.1 steps.toNat
  s.1 ++ l.1 ++ List.replicate l.2.1.length Ev.remove

/-- EffectivityIndicator text and color from __init__ (lines 343-357):
"SUPER!" above 1, "WEAK..." below 1, empty at exactly 1. -/
def effectivityText (effectiveness : ℚ) : String × String :=
  if effectiveness > 1 then ("SUPER!", Color.green ++ Color.thicc)
  else if effectiveness < 1 then ("WEAK...", Color.red)
  else ("", Color.white)

/-- EffectivityIndicator.play (lines 362-380): no-op on empty text, early
return on CoordinateError from the add, otherwise show, a scaled sleep, and
the removal. -/
def EffectivityIndicator.play (env : Env) (x y : ℤ) (effectiveness : ℚ)
    (duration : ℚ) : List Ev :=
  let t := effectivityText effectiveness
  if t.1 = "" then []
  else if env.canPlace x y then
    [Ev.add t.1 x y, Ev.redraw, Ev.sleep (env.speed * duration), Ev.remove]
  else
    [Ev.addFail t.1 x y]

/-- A Poke as seen by the coordinator: only its icon is read.  `none` models
a target failing the hasattr(target, ico) / hasattr(target.ico, x) guard. -/
structure Poke where
  ico : Option IconRect
deriving DecidableEq, Repr

/-- An Attack as seen by the coordinator: `type_name = none` models an attack
failing the hasattr(attack, type) guard (line 424); factor feeds the
intensity classifier. -/
structure Attack where
  type_name : Option String
  factor : ℚ

/-- One primitive animator invocation made by the coordinator, with the
exact constructor arguments and play duration used by the source. -/
inductive SubAnim where
  | hitFlash (ico : IconRect) (type_name : String) (flashes : ℕ)
  | damageNumber (dn : DamageNumber) (duration : ℚ)
  | effectivity (x y : ℤ) (effectiveness : ℚ) (duration : ℚ)
  | screenShake (intensity : AnimationIntensity)
  | statusIndicator (sei : StatusEffectIndicator) (duration : ℚ)

/-- BattleAnimator.play_attack_animation (lines 402-460) as the ordered list
of primitive animator runs it performs. -/
def play_attack_animation (defender : Poke) (attack : Attack) (damage : ℤ)
    (effectiveness : ℚ) (is_miss : Bool) : List SubAnim :=
  match defender.ico with
  | none => []
  | some ico =>
    let type_name := attack.type_name.getD ("normal")
    let intensity := get_animation_intensity damage attack.factor
    let flash : List SubAnim :=
      if is_miss = false ∧ 0 < damage then
        [SubAnim.hitFlash ico type_name 2]
      else []
    let dmg_x := ico.x + Int.fdiv ico.width 2
    let dmg_y := ico.y - 1
    let is_critical : Bool :=
      decide ((6 / 5 : ℚ) < effectiveness) && decide ((5 : ℤ) < damage)
    let damage_num := DamageNumber.init (if is_miss then 0 else damage)
      dmg_x (max 1 dmg_y) Color.white is_critical false
    flash ++ SubAnim.damageNumber damage_num (1 / 2) ::
      ((if is_miss = false ∧ effectiveness ≠ 1 then
          [SubAnim.effectivity (dmg_x - 2) (max 1 (dmg_y - 1))
            effectiveness (2 / 5)]
        else []) ++
      (if intensity = AnimationIntensity.STRONG ∨
          intensity = AnimationIntensity.CRITICAL then
          [SubAnim.screenShake intensity]
        else []))

/-- BattleAnimator.play_status_effect_animation (lines 462-485). -/
def play_status_effect_animation (target : Poke) (effect_name : String)
    (is_applied : Bool) : List SubAnim :=
  match target.ico with
  | none => []
  | some ico =>
    [SubAnim.statusIndicator
      (StatusEffectIndicator.init effect_name
        (ico.x + Int.fdiv ico.width 2) (ico.y - 1) is_applied)
      (3 / 5)]

/-- BattleAnimator.play_heal_animation (lines 487-507). -/
def play_heal_animation (target : Poke) (heal_amount : ℤ) : List SubAnim :=
  match target.ico with
  | none => []
  | some ico =>
    let dmg_x := ico.x + Int.fdiv ico.width 2
    let dmg_y := ico.y - 1
    [SubAnim.damageNumber
      (DamageNumber.init heal_amount dmg_x (max 1 dmg_y) Color.white
        false true)
      (3 / 5)]

/-- Run one primitive animator invocation to its surface-event trace. -/
def SubAnim.run (env : Env) : SubAnim → List Ev
  | SubAnim.hitFlash ico tn fl => HitFlash.play env ico tn fl
  | SubAnim.damageNumber dn dur => DamageNumber.play env dn dur
  | SubAnim.effectivity x y eff dur =>
      EffectivityIndicator.play env x y eff dur
  | SubAnim.screenShake i => ScreenShake.play env i
  | SubAnim.statusIndicator sei dur => StatusEffectIndicator.play env sei dur

/-- Full surface-event trace of play_attack_animation. -/
def runAttackAnimation (env : Env) (defender : Poke) (attack : Attack)
    (damage : ℤ) (effectiveness : ℚ) (is_miss : Bool) : List Ev :=
  (play_attack_animation defender attack damage effectiveness
    is_miss).flatMap (SubAnim.run env)

/-- Full surface-event trace of play_status_effect_animation. -/
def runStatusEffectAnimation (env : Env) (target : Poke)
    (effect_name : String) (is_applied : Bool) : List Ev :=
  (play_status_effect_animation target effect_name is_applied).flatMap
    (SubAnim.run env)

/-- Full surface-event trace of play_heal_animation. -/
def runHealAnimation (env : Env) (target : Poke) (heal_amount : ℤ) :
    List Ev :=
  (play_heal_animation target heal_amount).flatMap (SubAnim.run env)

/-- Spec-side description of the playAttack beat, written from the claimed
contract rather than the code: (1) hit flash iff not a miss and damage > 0;
(2) damage anchor at the icon's horizontal center one row above the icon,
clamped to row ≥ 1; (3) damage number with isCritical exactly when
effectiveness > 1.2 and damage > 5, value forced to 0 on a miss; (4)
effectiveness label iff not a miss and effectiveness ≠ 1, one row above
(clamped to row ≥ 1) and two columns left of the damage anchor; (5) screen
shake last, exactly when the classified intensity is STRONG or CRITICAL.
Durations and the flash count are not constrained by the claim and are taken
from the code. -/
def playAttackClaim (defender : Poke) (attack : Attack) (damage : ℤ)
    (effectiveness : ℚ) (is_miss : Bool) : List SubAnim :=
  match defender.ico with
  | none => []
  | some ico =>
    let anchorX := ico.x + Int.fdiv ico.width 2
    let anchorY := max 1 (ico.y - 1)
    let intensity := get_animation_intensity damage attack.factor
    (if is_miss = false ∧ 0 < damage then
        [SubAnim.hitFlash ico (attack.type_name.getD ("normal")) 2]
      else [])
    ++ [SubAnim.damageNumber
          (DamageNumber.init (if is_miss then 0 else damage) anchorX anchorY
            Color.white
            (decide ((6 / 5 : ℚ) < effectiveness ∧ (5 : ℤ) < damage)) false)
          (1 / 2)]
    ++ (if is_miss = false ∧ effectiveness ≠ 1 then
          [SubAnim.effectivity (anchorX - 2) (max 1 (anchorY - 1))
            effectiveness (2 / 5)]
        else [])
    ++ (if intensity = AnimationIntensity.STRONG ∨
          intensity = AnimationIntensity.CRITICAL then
          [SubAnim.screenShake intensity]
        else [])

/-- Spec-side reading of the claimed non-miss damage-number loop: the run
stops early, with cleanup, once the token reaches the top margin (row ≤ 1)
after its upward move.  This follows the claim's words; it is compared
against the code-side dnRiseLoop, which only stops the upward movement and
keeps redrawing and waiting for the full step count. -/
def dnRiseLoopClaim (env : Env) (x : ℤ) (delay : ℚ) : ℤ → ℕ → List Ev × ℤ
  | y, 0 => ([], y)
  | y, n + 1 =>
    if y > 1 then
      if env.canPlace x (y - 1) then
        if y - 1 ≤ 1 then
          ([Ev.redraw, Ev.sleep (env.speed * delay), Ev.move 0 (-1)], y - 1)
        else
          let r := dnRiseLoopClaim env x delay (y - 1) n
          (Ev.redraw :: Ev.sleep (env.speed * delay) :: Ev.move 0 (-1) ::
            r.1, r.2)
      else
        ([Ev.redraw, Ev.sleep (env.speed * delay)], y)
    else
      ([Ev.redraw, Ev.sleep (env.speed * delay)], y)

/-- Spec-side reading of the claimed non-miss damage-number play, built on
dnRiseLoopClaim; placement and cleanup as claimed. -/
def damageNumberPlaySpec (env : Env) (dn : DamageNumber) (duration : ℚ) :
    List Ev :=
  if env.canPlace dn.x dn.y then
    let steps : ℕ := (max 3 (pyInt (duration / (3 / 20)))).toNat
    let r := dnRiseLoopClaim env dn.x (duration / steps) dn.y steps
    Ev.add dn.text dn.x dn.y :: (r.1 ++ [Ev.remove])
  else
    [Ev.addFail dn.text dn.x dn.y]

/-- C2: the intensity classifier is a pure total function with the bands
d*f ≤ 2 → WEAK, 2 < d*f ≤ 5 → NORMAL, 5 < d*f ≤ 10 → STRONG,
10 < d*f → CRITICAL, boundaries falling in the lower tier; in particular
classify(1,1.0)=WEAK, classify(5,1.0)=NORMAL, classify(5,1.5)=STRONG,
classify(10,2.0)=CRITICAL. -/
theorem intensity_classifier_bands :
    (∀ (d : ℤ) (f : ℚ),
      ((d : ℚ) * f ≤ 2 →
        get_animation_intensity d f = AnimationIntensity.WEAK) ∧
      (2 < (d : ℚ) * f → (d : ℚ) * f ≤ 5 →
        get_animation_intensity d f = AnimationIntensity.NORMAL) ∧
      (5 < (d : ℚ) * f → (d : ℚ) * f ≤ 10 →
        get_animation_intensity d f = AnimationIntensity.STRONG) ∧
      (10 < (d : ℚ) * f →
        get_animation_intensity d f = AnimationIntensity.CRITICAL)) ∧
    get_animation_intensity 1 1 = AnimationIntensity.WEAK ∧
    get_animation_intensity 5 1 = AnimationIntensity.NORMAL ∧
    get_animation_intensity 5 (3 / 2) = AnimationIntensity.STRONG ∧
    get_animation_intensity 10 2 = AnimationIntensity.CRITICAL := by
  have hb : ∀ (d : ℤ) (f : ℚ),
      ((d : ℚ) * f ≤ 2 →
        get_animation_intensity d f = AnimationIntensity.WEAK) ∧
      (2 < (d : ℚ) * f → (d : ℚ) * f ≤ 5 →
        get_animation_intensity d f = AnimationIntensity.NORMAL) ∧
      (5 < (d : ℚ) * f → (d : ℚ) * f ≤ 10 →
        get_animation_intensity d f = AnimationIntensity.STRONG) ∧
      (10 < (d : ℚ) * f →
        get_animation_intensity d f = AnimationIntensity.CRITICAL) := by
    intro d f
    simp only [get_animation_intensity]
    refine ⟨fun h => ?_, fun h1 h2 => ?_, fun h1 h2 => ?_, fun h => ?_⟩ <;>
      split_ifs <;> first | rfl | linarith
  refine ⟨hb, (hb 1 1).1 (by norm_num),
    (hb 5 1).2.1 (by norm_num) (by norm_num),
    (hb 5 (3 / 2)).2.2.1 (by norm_num) (by norm_num),
    (hb 10 2).2.2.2 (by norm_num)⟩

/-- Witness for C2: the band hypotheses are satisfiable at concrete
inputs. -/
theorem intensity_classifier_bands_witness :
    get_animation_intensity 3 1 = AnimationIntensity.NORMAL :=
  (intensity_classifier_bands.1 3 1).2.1 (by norm_num) (by norm_num)

/-- C5: the damage-number text is МISS-free only per the rule — heal gives
"+amount", zero without heal gives the literal "MISS" (containing no digit
0), critical non-zero non-heal gives "!amount!", and otherwise the plain
"amount". -/
theorem damage_text_rule (damage x y : ℤ) (color : String)
    (crit heal : Bool) :
    (heal = true →
      (DamageNumber.init damage x y color crit heal).text =
        "+" ++ toString damage) ∧
    (heal = false → damage = 0 →
      (DamageNumber.init damage x y color crit heal).text = "MISS" ∧
      ¬ ('0' ∈ (DamageNumber.init damage x y color crit heal).text.data)) ∧
    (heal = false → damage ≠ 0 → crit = true →
      (DamageNumber.init damage x y color crit heal).text =
        "!" ++ toString damage ++ "!") ∧
    (heal = false → damage ≠ 0 → crit = false →
      (DamageNumber.init damage x y color crit heal).text =
        toString damage) := by
  refine ⟨fun hh => ?_, fun hh hd => ?_, fun hh hd hc => ?_,
    fun hh hd hc => ?_⟩
  · subst hh
    simp [DamageNumber.init]
  · subst hh
    subst hd
    refine ⟨by simp [DamageNumber.init], ?_⟩
    simp [DamageNumber.init]
  · subst hh
    subst hc
    simp [DamageNumber.init, hd]
  · subst hh
    subst hc
    simp [DamageNumber.init, hd]

/-- Witness for C5: the miss and critical scenarios from the spec. -/
theorem damage_text_rule_witness :
    (DamageNumber.init 0 4 4 Color.white false false).text = "MISS" ∧
    (DamageNumber.init 7 4 4 Color.white true false).text =
      "!" ++ toString (7 : ℤ) ++ "!" :=
  ⟨((damage_text_rule 0 4 4 Color.white false false).2.1 rfl rfl).1,
    (damage_text_rule 7 4 4 Color.white true false).2.2.1 rfl
      (by decide) rfl⟩

/-- C8: the attack-type style lookup is total and, on every key missing from
the config table, returns the identical descriptor as the "normal" entry. -/
theorem type_effects_fallback (s : String)
    (h : TYPE_EFFECT_CONFIG.lookup s = none) :
    get_type_effects s = get_type_effects ("normal") := by
  unfold get_type_effects
  rw [h]
  rfl

/-- Witness for C8: "dragon" is not in the config table. -/
theorem type_effects_fallback_witness :
    get_type_effects ("dragon") = get_type_effects ("normal") :=
  type_effects_fallback ("dragon") (by decide)

/-- C9: glyph-token disposal is idempotent — a second dispose leaves the
token and the surface unchanged and performs no surface operation, and
disposing a never-placed token is a no-op. -/
theorem dispose_idempotent (added : Bool) (placedCount : ℕ) :
    disposeTok (disposeTok added placedCount).1
        (disposeTok added placedCount).2.1 =
      ((disposeTok added placedCount).1,
        (disposeTok added placedCount).2.1, ([] : List Ev)) ∧
    disposeTok false placedCount = (false, placedCount, ([] : List Ev)) := by
  cases added <;> simp [disposeTok]

/-- C10: heal takes precedence over the miss rule and critical styling — a
heal DamageNumber renders "+amount" (never "MISS" nor "!amount!") for every
amount and critical flag, and its play takes the rising non-miss path. -/
theorem heal_precedence (amount x y : ℤ) (color : String) (crit : Bool)
    (env : Env) (duration : ℚ) :
    (DamageNumber.init amount x y color crit true).text =
      "+" ++ toString amount ∧
    (DamageNumber.init amount x y color crit true).text ≠ "MISS" ∧
    (DamageNumber.init amount x y color crit true).text ≠
      "!" ++ toString amount ++ "!" ∧
    DamageNumber.play env (DamageNumber.init amount x y color crit true)
        duration =
      dnPlayRise env (DamageNumber.init amount x y color crit true)
        duration := by
  refine ⟨by simp [DamageNumber.init], ?_, ?_, ?_⟩
  · intro h
    have h2 := congrArg String.data h
    simp [DamageNumber.init, String.data_append] at h2
  · intro h
    have h2 := congrArg String.data h
    simp [DamageNumber.init, String.data_append] at h2
  · simp [DamageNumber.play, DamageNumber.init]

/-- C6: every public coordinator operation called on a target without a
valid icon rectangle performs zero surface operations (its trace is empty);
returning normally is inherent in the total embedding. -/
theorem coordinator_invalid_icon_noop (env : Env) (p : Poke)
    (h : p.ico = none) (attack : Attack) (damage : ℤ) (effectiveness : ℚ)
    (is_miss : Bool) (effect_name : String) (is_applied : Bool)
    (heal_amount : ℤ) :
    runAttackAnimation env p attack damage effectiveness is_miss = [] ∧
    runStatusEffectAnimation env p effect_name is_applied = [] ∧
    runHealAnimation env p heal_amount = [] := by
  refine ⟨?_, ?_, ?_⟩ <;>
    simp [runAttackAnimation, runStatusEffectAnimation, runHealAnimation,
      play_attack_animation, play_status_effect_animation,
      play_heal_animation, h]

/-- Witness for C6: a concrete icon-less Poke makes all three operations
produce the empty trace. -/
theorem coordinator_invalid_icon_noop_witness :
    runAttackAnimation envAll ⟨none⟩ ⟨none, 1⟩ 5 1 false = [] ∧
    runStatusEffectAnimation envAll ⟨none⟩ ("burning") true = [] ∧
    runHealAnimation envAll ⟨none⟩ 5 = [] :=
  coordinator_invalid_icon_noop envAll ⟨none⟩ rfl ⟨none, 1⟩ 5 1 false
    ("burning") true 5

lemma stillPlaced_append (a b : List Ev) :
    stillPlaced (a ++ b) = stillPlaced a + stillPlaced b := by
  simp [stillPlaced, List.countP_append]
  ring

lemma dnRiseLoop_counts (env : Env) (x : ℤ) (delay : ℚ) :
    ∀ (n : ℕ) (y : ℤ),
      (dnRiseLoop env x delay y n).1.countP isAdd = 0 ∧
      (dnRiseLoop env x delay y n).1.countP isRemove = 0 := by
  intro n
  induction n with
  | zero =>
    intro y
    simp [dnRiseLoop]
  | succ k ih =>
    intro y
    simp only [dnRiseLoop]
    split_ifs with h1 h2
    · have hk := ih (y - 1)
      simp [List.countP_cons, isAdd, isRemove, hk.1, hk.2]
    · simp [List.countP_cons, isAdd, isRemove]
    · have hk := ih y
      simp [List.countP_cons, isAdd, isRemove, hk.1, hk.2]

lemma dnMissLoop_counts (env : Env) (y : ℤ) :
    ∀ (n : ℕ) (x : ℤ) (k : ℕ),
      (dnMissLoop env y x k n).1.countP isAdd = 0 ∧
      (dnMissLoop env y x k n).1.countP isRemove = 0 := by
  intro n
  induction n with
  | zero =>
    intro x k
    simp [dnMissLoop]
  | succ m ih =>
    intro x k
    simp only [dnMissLoop]
    split_ifs <;>
      simp [List.countP_cons, List.countP_append, isAdd, isRemove,
        (ih _ _).1, (ih _ _).2]

lemma seiLoop_counts (env : Env) (x : ℤ) (delay : ℚ) :
    ∀ (n : ℕ) (y : ℤ),
      (seiLoop env x delay y n).1.countP isAdd = 0 ∧
      (seiLoop env x delay y n).1.countP isRemove = 0 := by
  intro n
  induction n with
  | zero =>
    intro y
    simp [seiLoop]
  | succ k ih =>
    intro y
    simp only [seiLoop]
    split_ifs with h1
    · have hk := ih (y - 1)
      simp [List.countP_cons, isAdd, isRemove, hk.1, hk.2]
    · simp [List.countP_cons, isAdd, isRemove]

lemma countP_replicate_remove (n : ℕ) :
    (List.replicate n Ev.remove).countP isRemove = n ∧
    (List.replicate n Ev.remove).countP isAdd = 0 := by
  induction n with
  | zero => simp
  | succ k ih =>
    simp [List.replicate_succ, List.countP_cons, isAdd, isRemove, ih.1,
      ih.2]

lemma hitFlashCycle_stillPlaced (env : Env) (ch : String)
    (ps : List (ℤ × ℤ)) : stillPlaced (hitFlashCycle env ch ps) = 0 := by
  have hadd : ((ps.map fun p =>
      if env.canPlace p.1 p.2 then Ev.add ch p.1 p.2
      else Ev.addFail ch p.1 p.2).countP isAdd) =
      (ps.filter fun p => env.canPlace p.1 p.2).length := by
    rw [List.countP_map, ← List.countP_eq_length_filter]
    apply List.countP_congr
    intro p _
    by_cases hc : env.canPlace p.1 p.2 <;> simp [hc, isAdd]
  have hrem : ((ps.map fun p =>
      if env.canPlace p.1 p.2 then Ev.add ch p.1 p.2
      else Ev.addFail ch p.1 p.2).countP isRemove) = 0 := by
    rw [List.countP_map]
    apply List.countP_eq_zero.mpr
    intro p _
    by_cases hc : env.canPlace p.1 p.2 <;> simp [hc, isRemove]
  simp [hitFlashCycle, stillPlaced, List.countP_append, hadd, hrem,
    List.countP_cons, isAdd, isRemove,
    (countP_replicate_remove _).1, (countP_replicate_remove _).2]

lemma stillPlaced_flatMap_zero {α : Type} (f : α → List Ev) :
    ∀ (l : List α), (∀ a ∈ l, stillPlaced (f a) = 0) →
      stillPlaced (l.flatMap f) = 0 := by
  intro l
  induction l with
  | nil =>
    intro _
    simp [stillPlaced]
  | cons a as ih =>
    intro h
    rw [List.flatMap_cons, stillPlaced_append]
    rw [h a (List.mem_cons_self a as), ih fun b hb =>
      h b (List.mem_cons_of_mem a hb)]
    ring

lemma tpSpawn_counts (env : Env) (ch : String) (sx sy : ℤ) :
    ∀ (n k : ℕ),
      (tpSpawn env ch sx sy k n).1.countP isAdd =
        (tpSpawn env ch sx sy k n).2.1.length ∧
      (tpSpawn env ch sx sy k n).1.countP isRemove = 0 := by
  intro n
  induction n with
  | zero =>
    intro k
    simp [tpSpawn]
  | succ m ih =>
    intro k
    simp only [tpSpawn]
    split_ifs with h
    · simp [List.countP_cons, isAdd, isRemove, (ih (k + 2)).1,
        (ih (k + 2)).2]
    · simp [List.countP_cons, isAdd, isRemove, (ih (k + 2)).1,
        (ih (k + 2)).2]

lemma tpMoveParticles_counts (env : Env) (sx sy : ℤ) (dx dy : ℚ)
    (step : ℕ) :
    ∀ (ps : List (ℤ × ℤ)) (k : ℕ),
      (tpMoveParticles env sx sy dx dy step k ps).1.countP isAdd = 0 ∧
      (tpMoveParticles env sx sy dx dy step k ps).1.countP isRemove = 0 ∧
      (tpMoveParticles env sx sy dx dy step k ps).2.1.length =
        ps.length := by
  intro ps
  induction ps with
  | nil =>
    intro k
    simp [tpMoveParticles]
  | cons p rest ih =>
    intro k
    simp only [tpMoveParticles]
    split_ifs with h
    · simp [List.countP_cons, isAdd, isRemove, (ih (k + 2)).1,
        (ih (k + 2)).2.1, (ih (k + 2)).2.2]
    · simp [List.countP_cons, isAdd, isRemove, (ih (k + 2)).1,
        (ih (k + 2)).2.1, (ih (k + 2)).2.2]

lemma tpLoop_counts (env : Env) (sx sy : ℤ) (dx dy : ℚ) :
    ∀ (fuel step k : ℕ) (ps : List (ℤ × ℤ)),
      (tpLoop env sx sy dx dy step k ps fuel).1.countP isAdd = 0 ∧
      (tpLoop env sx sy dx dy step k ps fuel).1.countP isRemove = 0 ∧
      (tpLoop env sx sy dx dy step k ps fuel).2.1.length = ps.length := by
  intro fuel
  induction fuel with
  | zero =>
    intro step k ps
    simp [tpLoop]
  | succ m ih =>
    intro step k ps
    simp only [tpLoop]
    have hm := tpMoveParticles_counts env sx sy dx dy step ps k
    have hl := ih (step + 1)
      (tpMoveParticles env sx sy dx dy step k ps).2.2
      (tpMoveParticles env sx sy dx dy step k ps).2.1
    simp [List.countP_append, List.countP_cons, isAdd, isRemove, hm.1,
      hm.2.1, hl.1, hl.2.1]
    rw [hl.2.2, hm.2.2]

lemma stillPlaced_spawn_loop (spawnEvs loopEvs : List Ev) (n : ℕ)
    (h1 : spawnEvs.countP isAdd = n) (h2 : spawnEvs.countP isRemove = 0)
    (h3 : loopEvs.countP isAdd = 0) (h4 : loopEvs.countP isRemove = 0) :
    stillPlaced (spawnEvs ++ loopEvs ++ List.replicate n Ev.remove) = 0 := by
  simp [stillPlaced, List.countP_append, h1, h2, h3, h4,
    (countP_replicate_remove n).1, (countP_replicate_remove n).2]

/-- C1: every primitive animator (DamageNumber, StatusEffectIndicator,
HitFlash, TypeParticles, EffectivityIndicator) leaves zero still-placed
glyph tokens when its play returns, on every exit path — early returns on
placement failure and loops shortened by mid-animation bounds failures
included — for every environment, every randomness stream, and every
input. -/
theorem no_leaked_glyphs (env : Env) :
    (∀ (dn : DamageNumber) (duration : ℚ),
      stillPlaced (DamageNumber.play env dn duration) = 0) ∧
    (∀ (sei : StatusEffectIndicator) (duration : ℚ),
      stillPlaced (StatusEffectIndicator.play env sei duration) = 0) ∧
    (∀ (ico : IconRect) (type_name : String) (flashes : ℕ),
      stillPlaced (HitFlash.play env ico type_name flashes) = 0) ∧
    (∀ (tp : TypeParticles) (num_particles : ℕ),
      stillPlaced (TypeParticles.play env tp num_particles) = 0) ∧
    (∀ (x y : ℤ) (effectiveness duration : ℚ),
      stillPlaced
        (EffectivityIndicator.play env x y effectiveness duration) = 0) := by
  refine ⟨?_, ?_, ?_, ?_, ?_⟩
  · intro dn duration
    unfold DamageNumber.play dnPlayMiss dnPlayRise
    have hm := dnMissLoop_counts env dn.y 3 dn.x 0
    have hr := dnRiseLoop_counts env dn.x
      (duration / ((max 3 (pyInt (duration / (3 / 20)))).toNat : ℚ))
      ((max 3 (pyInt (duration / (3 / 20)))).toNat) dn.y
    split_ifs <;>
      simp [stillPlaced, List.countP_cons, List.countP_append, isAdd,
        isRemove, hm.1, hm.2, hr.1, hr.2]
  · intro sei duration
    unfold StatusEffectIndicator.play
    have hs := seiLoop_counts env sei.x (duration / 6) 3 sei.y
    split_ifs <;>
      simp [stillPlaced, List.countP_cons, List.countP_append, isAdd,
        isRemove, hs.1, hs.2]
  · intro ico type_name flashes
    unfold HitFlash.play
    apply stillPlaced_flatMap_zero
    intro ch _
    exact hitFlashCycle_stillPlaced env ch (hitFlashPositions ico)
  · intro tp num_particles
    simp only [TypeParticles.play]
    apply stillPlaced_spawn_loop
    · rw [(tpLoop_counts env _ _ _ _ _ _ _ _).2.2]
      exact (tpSpawn_counts env _ tp.start_x tp.start_y _ _).1
    · exact (tpSpawn_counts env _ tp.start_x tp.start_y _ _).2
    · exact (tpLoop_counts env _ _ _ _ _ _ _ _).1
    · exact (tpLoop_counts env _ _ _ _ _ _ _ _).2.1
  · intro x y effectiveness duration
    unfold EffectivityIndicator.play
    by_cases h1 : (effectivityText effectiveness).1 = "" <;>
      by_cases h2 : env.canPlace x y <;>
        simp [h1, h2, stillPlaced, List.countP_cons, isAdd, isRemove]

/-- Counterexample to C4: for the unrecognized effect name "toxic" the
indicator does render — its play places one glyph (the claim asserts zero),
showing the fallback text "+*". -/
theorem status_unknown_renders_counterexample :
    (StatusEffectIndicator.play envAll
      (StatusEffectIndicator.init ("toxic") 5 5 true) (3 / 5)).countP
      isAdd = 1 ∧
    (StatusEffectIndicator.init ("toxic") 5 5 true).text = "+*" := by
  constructor
  · have h := seiLoop_counts envAll 5 ((3 / 5) / 6) 3 5
    have hp : envAll.canPlace 5 5 = true := rfl
    simp [StatusEffectIndicator.play, StatusEffectIndicator.init,
      List.countP_cons, List.countP_append, isAdd, isRemove, hp]
    intro a ha
    simpa [isAdd] using List.countP_eq_zero.mp h.1 a ha
  · rfl

/-- C4 amended: for every effect name outside the six recognized status
effects, the indicator falls back to the generic symbol "*" and white color
and renders normally — playing it on a placeable position places exactly one
glyph (and cleans it up), rather than skipping the animation. -/
theorem status_unknown_falls_back (effect_name : String)
    (hs : EFFECT_SYMBOLS.lookup effect_name = none)
    (hc : EFFECT_COLORS.lookup effect_name = none)
    (x y : ℤ) (is_applied : Bool) (env : Env) (duration : ℚ)
    (hplace : env.canPlace x y = true) :
    (StatusEffectIndicator.init effect_name x y is_applied).text =
      (if is_applied then "+" else "-") ++ "*" ∧
    (StatusEffectIndicator.init effect_name x y is_applied).color =
      Color.white ∧
    (StatusEffectIndicator.play env
      (StatusEffectIndicator.init effect_name x y is_applied)
      duration).countP isAdd = 1 ∧
    stillPlaced (StatusEffectIndicator.play env
      (StatusEffectIndicator.init effect_name x y is_applied) duration)
      = 0 := by
  have hloop := seiLoop_counts env x (duration / 6) 3 y
  refine ⟨by simp [StatusEffectIndicator.init, statusSymbol, hs],
    by simp [StatusEffectIndicator.init, statusColor, hc], ?_, ?_⟩
  · simp [StatusEffectIndicator.play, StatusEffectIndicator.init,
      List.countP_cons, List.countP_append, isAdd, isRemove, hplace,
      hloop.1]
  · simp [StatusEffectIndicator.play, StatusEffectIndicator.init,
      stillPlaced, List.countP_cons, List.countP_append, isAdd, isRemove,
      hplace, hloop.1, hloop.2]

/-- C3: for every playAttack call the coordinator behaves exactly as the
claimed contract playAttackClaim describes — hit flash first iff not a miss
and damage > 0; damage anchor at the icon center one row above, clamped to
row ≥ 1; isCritical exactly when effectiveness > 1.2 and damage > 5 with a
miss forcing value 0; effectiveness label iff not a miss and effectiveness
≠ 1, one row above (clamped) and two columns left of the anchor; screen
shake last iff the classified intensity is STRONG or CRITICAL — and the
spec scenario damage=12, factor=1.0, effectiveness=1.3 runs hit flash,
critical damage number, effectiveness label, screen shake in that order. -/
lemma decideAndEq (p q : Prop) [Decidable p] [Decidable q] :
    decide (p ∧ q) = (decide p && decide q) := by
  simp

theorem play_attack_matches_claim :
    (∀ (defender : Poke) (attack : Attack) (damage : ℤ)
      (effectiveness : ℚ) (is_miss : Bool),
      play_attack_animation defender attack damage effectiveness is_miss =
        playAttackClaim defender attack damage effectiveness is_miss) ∧
    play_attack_animation ⟨some ⟨10, 5, 4, 3⟩⟩ ⟨some ("fire"), 1⟩ 12
        (13 / 10) false =
      [SubAnim.hitFlash ⟨10, 5, 4, 3⟩ ("fire") 2,
        SubAnim.damageNumber
          (DamageNumber.init 12 12 4 Color.white true false) (1 / 2),
        SubAnim.effectivity 10 3 (13 / 10) (2 / 5),
        SubAnim.screenShake AnimationIntensity.CRITICAL] := by
  constructor
  · intro defender attack damage effectiveness is_miss
    obtain ⟨ico⟩ := defender
    cases ico with
    | none => rfl
    | some r =>
      have hmax : max 1 (r.y - 1 - 1) = max 1 (max 1 (r.y - 1) - 1) := by
        omega
      simp only [play_attack_animation, playAttackClaim, decideAndEq, hmax,
        List.append_assoc, List.singleton_append, List.cons_append,
        List.nil_append]
  · have h1 : decide ((6 / 5 : ℚ) < 13 / 10) = true :=
      decide_eq_true (by norm_num)
    have h2 : decide ((5 : ℤ) < 12) = true := decide_eq_true (by decide)
    have h3 : get_animation_intensity 12 1 = AnimationIntensity.CRITICAL :=
      by
      simp only [get_animation_intensity]
      norm_num
    simp only [play_attack_animation, Option.getD, h1, h2, h3,
      Bool.and_true, Bool.true_and]
    norm_num [Int.fdiv]

lemma dnRiseLoop_full (env : Env) (hc : ∀ a b, env.canPlace a b = true)
    (x : ℤ) (delay : ℚ) :
    ∀ (n : ℕ) (y : ℤ),
      (dnRiseLoop env x delay y n).1.countP isRedraw = n ∧
      (dnRiseLoop env x delay y n).1.countP isMove =
        min n (y - 1).toNat ∧
      (dnRiseLoop env x delay y n).1.filter isSleep =
        List.replicate n (Ev.sleep (env.speed * delay)) := by
  intro n
  induction n with
  | zero =>
    intro y
    simp [dnRiseLoop]
  | succ k ih =>
    intro y
    simp only [dnRiseLoop]
    by_cases hy : y > 1
    · rw [if_pos hy, hc x (y - 1), if_pos rfl]
      have hk := ih (y - 1)
      refine ⟨?_, ?_, ?_⟩
      · simp [List.countP_cons, isRedraw, hk.1]
      · simp only [List.countP_cons, isMove, hk.2.1]
        norm_num
        omega
      · simp [List.filter_cons, isSleep, hk.2.2, List.replicate_succ]
    · rw [if_neg hy]
      have hk := ih y
      refine ⟨?_, ?_, ?_⟩
      · simp [List.countP_cons, isRedraw, hk.1]
      · simp only [List.countP_cons, isMove, hk.2.1]
        norm_num
        omega
      · simp [List.filter_cons, isSleep, hk.2.2, List.replicate_succ]

/-- Counterexample to C7: starting one row above the top margin (row 2) with
duration 0.5 (hence steps = 3), the code performs all 3 redraw/wait cycles
after placement — it does not stop the loop once the token reaches row ≤ 1,
while the claimed behavior (damageNumberPlaySpec, stopping early at the top
margin) performs only 1 redraw. -/
theorem damage_rise_no_early_stop_counterexample :
    (DamageNumber.play envAll
      (DamageNumber.init 7 5 2 Color.white false false) (1 / 2)).countP
      isRedraw = 3 ∧
    (damageNumberPlaySpec envAll
      (DamageNumber.init 7 5 2 Color.white false false) (1 / 2)).countP
      isRedraw = 1 := by
  have hsteps : (max 3 (pyInt ((1 / 2 : ℚ) / (3 / 20)))).toNat = 3 := by
    norm_num [pyInt]
    decide
  constructor
  · simp only [DamageNumber.play, dnPlayRise, DamageNumber.init]
    rw [hsteps]
    decide
  · simp only [damageNumberPlaySpec, DamageNumber.init]
    rw [hsteps]
    decide

/-- C7 amended: on the non-miss path with unobstructed placement, the
animator performs exactly steps = max(3, int(duration/0.15)) redraw/wait
cycles regardless of the row — the loop does not stop at the top margin —
each wait being duration/steps (scaled); the token moves one row upward only
while its row exceeds 1, so exactly min(steps, y0 - 1) upward moves happen;
the token is placed first and removed at the end (no leak). -/
theorem damage_rise_amended (env : Env) (dn : DamageNumber) (duration : ℚ)
    (hmiss : ¬ (dn.damage = 0 ∧ dn.is_heal = false))
    (hc : ∀ a b, env.canPlace a b = true) :
    (DamageNumber.play env dn duration).head? =
      some (Ev.add dn.text dn.x dn.y) ∧
    (DamageNumber.play env dn duration).countP isRedraw =
      (max 3 (pyInt (duration / (3 / 20)))).toNat ∧
    (DamageNumber.play env dn duration).countP isMove =
      min ((max 3 (pyInt (duration / (3 / 20)))).toNat)
        (dn.y - 1).toNat ∧
    (DamageNumber.play env dn duration).filter isSleep =
      List.replicate ((max 3 (pyInt (duration / (3 / 20)))).toNat)
        (Ev.sleep (env.speed *
          (duration / ((max 3 (pyInt (duration / (3 / 20)))).toNat : ℚ)))) ∧
    (DamageNumber.play env dn duration).getLast? = some Ev.remove ∧
    stillPlaced (DamageNumber.play env dn duration) = 0 := by
  have hfull := dnRiseLoop_full env hc dn.x
    (duration / ((max 3 (pyInt (duration / (3 / 20)))).toNat : ℚ))
    ((max 3 (pyInt (duration / (3 / 20)))).toNat) dn.y
  have hcounts := dnRiseLoop_counts env dn.x
    (duration / ((max 3 (pyInt (duration / (3 / 20)))).toNat : ℚ))
    ((max 3 (pyInt (duration / (3 / 20)))).toNat) dn.y
  simp only [DamageNumber.play, if_neg hmiss, dnPlayRise, hc dn.x dn.y,
    if_true]
  refine ⟨rfl, ?_, ?_, ?_, ?_, ?_⟩
  · simp [List.countP_cons, List.countP_append, isRedraw, hfull.1]
  · simp [List.countP_cons, List.countP_append, isMove, hfull.2.1]
  · simp [List.filter_cons, List.filter_append, isSleep, hfull.2.2]
  · rw [← List.cons_append, List.getLast?_concat]
  · simp [stillPlaced, List.countP_cons, List.countP_append, isAdd,
      isRemove, hcounts.1, hcounts.2]

/-- Witness for the amended C7 at a concrete run: damage 7 from row 3 with
duration 0.5 in the all-permissive environment. -/
theorem damage_rise_amended_witness :
    (DamageNumber.play envAll
      (DamageNumber.init 7 5 3 Color.white false false) (1 / 2)).head? =
      some (Ev.add (DamageNumber.init 7 5 3 Color.white false false).text
        (DamageNumber.init 7 5 3 Color.white false false).x
        (DamageNumber.init 7 5 3 Color.white false false).y) ∧
    (DamageNumber.play envAll
      (DamageNumber.init 7 5 3 Color.white false false) (1 / 2)).countP
      isRedraw = (max 3 (pyInt ((1 / 2) / (3 / 20)))).toNat ∧
    (DamageNumber.play envAll
      (DamageNumber.init 7 5 3 Color.white false false) (1 / 2)).countP
      isMove = min ((max 3 (pyInt ((1 / 2) / (3 / 20)))).toNat)
        ((DamageNumber.init 7 5 3 Color.white false false).y - 1).toNat ∧
    (DamageNumber.play envAll
      (DamageNumber.init 7 5 3 Color.white false false) (1 / 2)).filter
      isSleep = List.replicate ((max 3 (pyInt ((1 / 2) / (3 / 20)))).toNat)
        (Ev.sleep (envAll.speed *
          ((1 / 2) / ((max 3 (pyInt ((1 / 2) / (3 / 20)))).toNat : ℚ)))) ∧
    (DamageNumber.play envAll
      (DamageNumber.init 7 5 3 Color.white false false) (1 / 2)).getLast? =
      some Ev.remove ∧
    stillPlaced (DamageNumber.play envAll
      (DamageNumber.init 7 5 3 Color.white false false) (1 / 2)) = 0 :=
  damage_rise_amended envAll (DamageNumber.init 7 5 3 Color.white false
    false) (1 / 2) (by decide) (fun _ _ => rfl)

/-- Witness for the amended C4 at the concrete unknown effect "toxic". -/
theorem status_unknown_falls_back_witness :
    (StatusEffectIndicator.init ("toxic") 5 5 true).text =
      (if true then "+" else "-") ++ "*" ∧
    (StatusEffectIndicator.init ("toxic") 5 5 true).color = Color.white ∧
    (StatusEffectIndicator.play envAll
      (StatusEffectIndicator.init ("toxic") 5 5 true) (3 / 5)).countP
      isAdd = 1 ∧
    stillPlaced (StatusEffectIndicator.play envAll
      (StatusEffectIndicator.init ("toxic") 5 5 true) (3 / 5)) = 0 :=
  status_unknown_falls_back ("toxic") (by decide) (by decide) 5 5 true
    envAll (3 / 5) rfl

end Pokete
